import Mathlib

/-!
Shallow embedding of the deepbook generation pipeline.

The embedded code lives in `src/app/models.py` (data models, stage
operations, illustration generation) and `src/app/__init__.py` (the
orchestrating `run_app`).  External collaborators (the langchain LLM
wrapper, the OpenAI image client, pydantic serialization and the
Streamlit renderer) are passed in as function parameters, exactly as the
Python code receives `llm` and `openai` as arguments.
-/

namespace DeepBook

/-- Exceptions that the pipeline operations can raise.  `attributeError`
models Python raising `AttributeError` when an attribute of `None` is
accessed (e.g. `self.outline.outlines` with `self.outline is None`),
`indexError` models out-of-range list indexing, `parseError` models
langchain raising `OutputParserException` from `parser.parse`, and the
two call errors model failures of the generative-model call and of the
image-synthesis call respectively. -/
inductive Err where
  | attributeError : Err
  | indexError : Err
  | parseError : Err
  | modelCallError : Err
  | externalCallError : Err
deriving DecidableEq

deriving instance DecidableEq for Except

/-- A JSON value, the shape of a model response after langchain has
extracted and JSON-decoded it; pydantic validation is modelled directly
on this type. -/
inductive JValue where
  | str : String → JValue
  | int : Int → JValue
  | arr : List JValue → JValue
  | obj : List (String × JValue) → JValue

/-- MetaDataModel (src/app/models.py 24-33): title, author, year, themes,
location. -/
structure MetaDataModel where
  title : String
  author : String
  year : Int
  themes : List String
  location : String
deriving DecidableEq

/-- ChapterOutlineModel (src/app/models.py 36-41): chapter number, title
and synopsis of one chapter. -/
structure ChapterOutlineModel where
  chapter : Int
  title : String
  synopsis : String
deriving DecidableEq

/-- BookOutlineModel (src/app/models.py 44-56): overall synopsis,
conflict, resolution and the list of chapter outlines. -/
structure BookOutlineModel where
  synopsis : String
  conflict : String
  resolution : String
  outlines : List ChapterOutlineModel
deriving DecidableEq

/-- CharacterModel (src/app/models.py 59-64). -/
structure CharacterModel where
  name : String
  description : String
  personality : String
deriving DecidableEq

/-- CharactersModel (src/app/models.py 67-70). -/
structure CharactersModel where
  characters : List CharacterModel
deriving DecidableEq

/-- ChapterTextModel (src/app/models.py 73-79) as its annotations declare
it: an integer chapter number and the chapter text.  This is the shape
of a fully decoded model response; `ChapterTextRaw` below models what
pydantic v1 actually stores when a field is missing, because the class
declares defaults (`Field("")` and a description string passed as a
positional default). -/
structure ChapterTextModel where
  chapter : Int
  text : String
deriving DecidableEq

/-- FullTextModel (src/app/models.py 82-85): `chapters` defaults to the
empty list, as in `chapters: List[ChapterTextModel] = []`. -/
structure FullTextModel where
  chapters : List ChapterTextModel := []
deriving DecidableEq

/-- Story (src/app/models.py 88-99): the root aggregate.  The four
`Optional` pydantic fields get an implicit default of `None`. -/
structure Story where
  prompt : String
  metadata : Option MetaDataModel := none
  characters : Option CharactersModel := none
  outline : Option BookOutlineModel := none
  text : Option FullTextModel := none
deriving DecidableEq

/-! ### Pydantic parsing of model responses -/

/-- Field lookup in a decoded JSON object (pydantic reads keys by name;
key order is irrelevant and unknown keys are ignored). -/
def jlookup (fields : List (String × JValue)) (k : String) : Option JValue :=
  (fields.find? (fun p => p.1 == k)).map (fun p => p.2)

/-- Validate a JSON value as a `str` field. -/
def asStr : JValue → Except Err String
  | .str s => .ok s
  | _ => .error .parseError

/-- Validate a JSON value as an `int` field.  Pydantic v1 also coerces
decimal digit strings to integers; that coercion is modelled for
non-negative decimal literals. -/
def asInt : JValue → Except Err Int
  | .int n => .ok n
  | .str s =>
    match s.toNat? with
    | some n => .ok (n : Int)
    | none => .error .parseError
  | _ => .error .parseError

/-- Validate a JSON value as a `List[str]` field. -/
def asStrList : JValue → Except Err (List String)
  | .arr xs => xs.mapM asStr
  | _ => .error .parseError

/-- Look up a required field; pydantic raises a validation error (seen by
the caller as an `OutputParserException`) when it is absent. -/
def requiredField (fs : List (String × JValue)) (k : String) : Except Err JValue :=
  match jlookup fs k with
  | some v => .ok v
  | none => .error .parseError

/-- Pydantic validation of a model response against `MetaDataModel`: all
five fields are required (none declares a default), and each must decode
at its declared type. -/
def parseMetaData : JValue → Except Err MetaDataModel
  | .obj fs => do
    let title ← asStr (← requiredField fs "title")
    let author ← asStr (← requiredField fs "author")
    let year ← asInt (← requiredField fs "year")
    let themes ← asStrList (← requiredField fs "themes")
    let location ← asStr (← requiredField fs "location")
    pure ⟨title, author, year, themes, location⟩
  | _ => .error .parseError

/-- The string that `ChapterTextModel.text` receives as its declared
default: the field description was passed to `Field` as a positional
argument, which makes it the default value (src/app/models.py 77-79). -/
def chapterTextDefaultText : String :=
  "The text for the chapter. This is the text that is read to children. It should read like a children\x27s book and follow the synopsis in the outline"

/-- What pydantic v1 actually stores for `ChapterTextModel`: because both
fields declare defaults they are not required, and defaults are not
validated, so a missing `chapter` key leaves the declared default `""`
(a string on an int-annotated field, from `chapter: int = Field("")`,
src/app/models.py 76).  The `chapter` field is therefore a `JValue`
here: an `int` when the response supplies it, the string `""` when it
does not. -/
structure ChapterTextRaw where
  chapter : JValue
  text : String

/-- Pydantic validation of a model response against `ChapterTextModel`
(src/app/models.py 73-79): a supplied `chapter` must validate as an
int, a missing one silently takes the unvalidated default `""`; a
supplied `text` must validate as a str, a missing one takes the
description string that was passed as a positional default. -/
def parseChapterText : JValue → Except Err ChapterTextRaw
  | .obj fs => do
    let chapter ←
      match jlookup fs "chapter" with
      | some v => (asInt v).map JValue.int
      | none => pure (JValue.str "")
    let text ←
      match jlookup fs "text" with
      | some v => asStr v
      | none => pure chapterTextDefaultText
    pure ⟨chapter, text⟩
  | _ => .error .parseError

/-! ### The Invoker -/

/-- Story._run_llm (src/app/models.py 101-120): build the prompt from the
template, the serialized story and the format instructions, call the
model, and parse the raw response.  Prompt construction and the model
call are the external boundary: they are abstracted into `llm`, which
maps the story (the only varying input of the rendered prompt) to the
model response, already JSON-decoded into a `JValue`, or to an error.
Validation of the response against the target schema is `parse`. -/
def Story.runLLM {α : Type} (llm : Story → Except Err JValue)
    (parse : JValue → Except Err α) (s : Story) : Except Err α := do
  let out ← llm s
  parse out

/-! ### Stage operations -/

/-- Story.add_metadata (src/app/models.py 122-132):
`self.metadata = self._run_llm(llm, MetaDataModel, "metadata")`.
`run` is the `_run_llm` call with the `MetaDataModel` schema; the
assignment happens only if the call returns.  The result pairs the story
after the call with the raised exception, if any.
`add_metadata_async` (134-144) runs the same helper in a thread. -/
def Story.add_metadata (run : Story → Except Err MetaDataModel) (s : Story) :
    Story × Option Err :=
  match run s with
  | .error e => (s, some e)
  | .ok m => ({ s with metadata := some m }, none)

/-- Story.add_characters (src/app/models.py 146-156):
`self.characters = self._run_llm(llm, CharactersModel, "characters")`.
`add_characters_async` (158-168) runs the same helper in a thread. -/
def Story.add_characters (run : Story → Except Err CharactersModel) (s : Story) :
    Story × Option Err :=
  match run s with
  | .error e => (s, some e)
  | .ok c => ({ s with characters := some c }, none)

/-- Story.add_outline (src/app/models.py 170-180):
`self.outline = self._run_llm(llm, BookOutlineModel, "outline")`.
`add_outline_async` (182-192) runs the same helper in a thread. -/
def Story.add_outline (run : Story → Except Err BookOutlineModel) (s : Story) :
    Story × Option Err :=
  match run s with
  | .error e => (s, some e)
  | .ok o => ({ s with outline := some o }, none)

/-- Loop body of Story.add_text (src/app/models.py 208-210): for each
chapter outline in order, run the chapter call and append its result to
`self.text.chapters`; a raised exception aborts the loop, keeping the
chapters appended so far. -/
def addTextLoop (run : ChapterOutlineModel → Except Err ChapterTextModel) :
    List ChapterOutlineModel → List ChapterTextModel × Option Err
  | [] => ([], none)
  | o :: os =>
    match run o with
    | .error e => ([], some e)
    | .ok t =>
      let r := addTextLoop run os
      (t :: r.1, r.2)

/-- Story.add_text (src/app/models.py 194-212).  First
`self.text = FullTextModel()` (an empty chapter list), then the loop
over `self.outline.outlines`; when `self.outline` is `None` the
attribute access raises `AttributeError`, after `self.text` was already
assigned.  `run` abstracts
`self._run_llm(llm, ChapterTextModel, outline.chapter, TEXT_TEMPLATE)`
as a function of the chapter outline; in the synchronous source the
serialized story passed to the model also grows with the chapters
appended so far, so using one `run` for both text stages encodes the
assumption that the per-chapter generation results coincide (the
conditioning of the sync/async comparison below). -/
def Story.add_text (run : ChapterOutlineModel → Except Err ChapterTextModel)
    (s : Story) : Story × Option Err :=
  match s.outline with
  | none => ({ s with text := some ⟨[]⟩ }, some .attributeError)
  | some ob =>
    let r := addTextLoop run ob.outlines
    ({ s with text := some ⟨r.1⟩ }, r.2)

/-- First exception among the fanned-out chapter tasks in completion
order: `asyncio.gather` propagates the exception of the first task that
raises. -/
def firstErrorAlong (run : ChapterOutlineModel → Except Err ChapterTextModel)
    (order : List ChapterOutlineModel) : Option Err :=
  order.findSome? (fun o =>
    match run o with
    | .error e => some e
    | .ok _ => none)

/-- The `asyncio.gather(*tasks)` call of Story.add_text_async
(src/app/models.py 242): tasks are one `generate_chapter_text(outline)`
per outline, each returning `(outline.chapter, chapter_text)`.  When
every task succeeds, gather returns the results in task submission
order, i.e. in the order of `tasks` (= outline order), regardless of
completion order; when some task raises, the exception of the first
task to raise, in completion order, propagates.  `order` is the
completion order of the concurrent tasks. -/
def gatherChapters (run : ChapterOutlineModel → Except Err ChapterTextModel)
    (tasks order : List ChapterOutlineModel) :
    Except Err (List (Int × ChapterTextModel)) :=
  match firstErrorAlong run order with
  | some e => .error e
  | none => tasks.mapM (fun o => (run o).map (fun t => (o.chapter, t)))

/-- The `sorted(results, key=lambda x: x[0])` call of
Story.add_text_async (src/app/models.py 245): a stable sort of the
`(chapter, chapter_text)` pairs by chapter number; Python sorting is
stable and so is insertion sort. -/
def sortByChapter (rs : List (Int × ChapterTextModel)) :
    List (Int × ChapterTextModel) :=
  List.insertionSort (fun a b => a.1 ≤ b.1) rs

/-- Story.add_text_async (src/app/models.py 214-249).  First
`self.text = FullTextModel()`; then one task per entry of
`self.outline.outlines` (an `AttributeError` if the outline is `None`);
then `asyncio.gather`; on success the results are sorted by chapter
number and the texts appended to `self.text.chapters`; if gather
raises, nothing is appended and `self.text` keeps its empty chapter
list.  `order` is the completion order of the concurrent tasks. -/
def Story.add_text_async (run : ChapterOutlineModel → Except Err ChapterTextModel)
    (order : List ChapterOutlineModel) (s : Story) : Story × Option Err :=
  match s.outline with
  | none => ({ s with text := some ⟨[]⟩ }, some .attributeError)
  | some ob =>
    match gatherChapters run ob.outlines order with
    | .error e => ({ s with text := some ⟨[]⟩ }, some e)
    | .ok results =>
      ({ s with text := some ⟨(sortByChapter results).map Prod.snd⟩ }, none)

/-! ### Illustration generation -/

/-- One entry of the `{"data": [{"url": ...}]}` response of the
image-synthesis call. -/
structure ImgData where
  url : String
deriving DecidableEq, Inhabited

/-- Response of `openai.Image.acreate`. -/
structure ImgResponse where
  data : List ImgData
deriving DecidableEq, Inhabited

/-- The fixed style descriptors of generate_image_async
(src/app/models.py 284-292). -/
def styleDescriptors : List String :=
  ["whimsical", "colorful", "watercolor style",
   "children\x27s book illustration", "cute and friendly",
   "detailed background", "gentle color palette"]

/-- `style_text = ", ".join(style_descriptors)` (src/app/models.py 294). -/
def styleText : String := String.intercalate ", " styleDescriptors

/-- The prompt handed to the image-synthesis call (src/app/models.py
298): the style phrase prepended to the descriptive text `res` that the
language model produced. -/
def imageSynthesisPrompt (res : String) : String :=
  "A children\x27s book illustration in " ++ styleText ++ " style. " ++ res

/-- The evaluation of `story.characters.characters[i]` inside the
template instantiation of generate_image_async (src/app/models.py
278-280): an `AttributeError` when `characters` is `None`, an
`IndexError` when `i` is out of range. -/
def getCharacter (s : Story) (i : Nat) : Except Err CharacterModel :=
  match s.characters with
  | none => .error .attributeError
  | some cs =>
    match cs.characters[i]? with
    | none => .error .indexError
    | some c => .ok c

/-- generate_image_async (src/app/models.py 252-305).  Formats the image
description template with the story and `story.characters.characters[i]`
(see `getCharacter`), calls the language model for a descriptive prompt
(`llm`, abstracting the template instantiation and the model call on
story, index and character), then issues the image-synthesis call
(`img`, abstracting `openai.Image.acreate`) with the style-prefixed
prompt, and returns `(i, res, response)`. -/
def generate_image_async (img : String → Except Err ImgResponse)
    (llm : Story → Nat → CharacterModel → Except Err String)
    (s : Story) (i : Nat) : Except Err (Nat × String × ImgResponse) := do
  let c ← getCharacter s i
  let res ← llm s i c
  let response ← img (imageSynthesisPrompt res)
  pure (i, res, response)

/-- generate_all_character_images (src/app/models.py 332-353): one
`generate_image_async` task per character index `0..n-1` (an
`AttributeError` if `characters` is `None`), joined with
`asyncio.gather`: results in task order when all succeed, the whole
batch raising when any task raises. -/
def generate_all_character_images (img : String → Except Err ImgResponse)
    (llm : Story → Nat → CharacterModel → Except Err String)
    (s : Story) : Except Err (List (Nat × String × ImgResponse)) :=
  match s.characters with
  | none => .error .attributeError
  | some cs =>
    (List.range cs.characters.length).mapM (generate_image_async img llm s)

/-! ### The orchestrator -/

/-- The five pipeline stages, in the order `run_app` runs them. -/
inductive Stage where
  | metadata : Stage
  | characters : Stage
  | images : Stage
  | outline : Stage
  | text : Stage
deriving DecidableEq

/-- Position of a stage in the fixed order of `run_app`. -/
def Stage.idx : Stage → Nat
  | .metadata => 0
  | .characters => 1
  | .images => 2
  | .outline => 3
  | .text => 4

/-- An observable event of one generation run: the begin of an external
call belonging to a stage, or the completion of the stage write into
the story (for the image stage, the completion of the image batch). -/
inductive Event where
  | call : Stage → Event
  | write : Stage → Event
deriving DecidableEq

/-- Event trace of run_app (src/app/__init__.py 125-208).  Each stage
block runs to completion under `loop.run_until_complete` before the
next block executes, so the trace is the concatenation of the stage
blocks in program order: metadata, characters, the image batch
(`nImgs` concurrent calls, then the batch completion), outline, and
chapter text (`nChaps` concurrent calls, then the write).  Within a
fan-out block the concurrent calls are indistinguishable here, because
every one of them begins after the preceding write and completes
before the following one. -/
def runAppTrace (nImgs nChaps : Nat) : List Event :=
  [.call .metadata, .write .metadata, .call .characters, .write .characters]
    ++ (List.range nImgs).map (fun _ => .call .images) ++ [.write .images]
    ++ [.call .outline, .write .outline]
    ++ (List.range nChaps).map (fun _ => .call .text) ++ [.write .text]

/-! ### Helper lemmas -/

/-- Joining a list of succeeding calls yields the list of their results. -/
lemma mapM_ok_of_forall {α β : Type} (f : α → Except Err β) (g : α → β) :
    ∀ l : List α, (∀ x ∈ l, f x = .ok (g x)) → l.mapM f = .ok (l.map g) := by
  intro l h
  induction l with
  | nil => rfl
  | cons a t ih =>
    rw [List.mapM_cons, h a (List.mem_cons_self a t)]
    rw [ih (fun x hx => h x (List.mem_cons_of_mem a hx))]
    rfl

/-- Joining a list of calls one of which fails yields a failure. -/
lemma mapM_error_of_mem {α β : Type} (f : α → Except Err β) {x : α} {e : Err}
    (hf : f x = .error e) :
    ∀ {l : List α}, x ∈ l → ∃ e', l.mapM f = .error e' := by
  intro l
  induction l with
  | nil => intro hx; cases hx
  | cons a t ih =>
    intro hx
    rw [List.mapM_cons]
    cases ha : f a with
    | error e' => exact ⟨e', rfl⟩
    | ok b =>
      rcases List.mem_cons.mp hx with hxa | hxt
      · subst hxa; rw [hf] at ha; cases ha
      · rcases ih hxt with ⟨e', he'⟩
        exact ⟨e', by rw [he']; rfl⟩

/-- Validating a serialized list of strings gives back exactly those
strings. -/
lemma mapM_asStr_map_str : ∀ ts : List String,
    (ts.map JValue.str).mapM asStr = .ok ts := by
  intro ts
  induction ts with
  | nil => rfl
  | cons a t ih =>
    rw [List.map_cons, List.mapM_cons]
    show asStr (.str a) >>= _ = _
    rw [show asStr (.str a) = .ok a from rfl]
    show (t.map JValue.str).mapM asStr >>= _ = _
    rw [ih]
    rfl

/-- When no task of the batch raises, gather sees no exception. -/
lemma firstErrorAlong_eq_none {run : ChapterOutlineModel → Except Err ChapterTextModel}
    {order : List ChapterOutlineModel}
    (h : ∀ o ∈ order, ∃ t, run o = .ok t) :
    firstErrorAlong run order = none := by
  rw [firstErrorAlong, List.findSome?_eq_none_iff]
  intro o ho
  obtain ⟨t, ht⟩ := h o ho
  rw [ht]

/-- When some task of the batch raises, gather sees an exception. -/
lemma firstErrorAlong_isSome {run : ChapterOutlineModel → Except Err ChapterTextModel}
    {o : ChapterOutlineModel} {e : Err} (he : run o = .error e) :
    ∀ {order : List ChapterOutlineModel}, o ∈ order →
      ∃ e', firstErrorAlong run order = some e' := by
  intro order
  induction order with
  | nil => intro ho; cases ho
  | cons a t ih =>
    intro ho
    rw [firstErrorAlong, List.findSome?_cons]
    cases ha : run a with
    | error e' => exact ⟨e', rfl⟩
    | ok v =>
      rcases List.mem_cons.mp ho with hoa | hot
      · subst hoa; rw [he] at ha; cases ha
      · rcases ih hot with ⟨e', he'⟩
        rw [firstErrorAlong] at he'
        exact ⟨e', he'⟩

/-- The sync text loop over all-succeeding calls returns every chapter in
outline order and raises nothing. -/
lemma addTextLoop_ok {run : ChapterOutlineModel → Except Err ChapterTextModel}
    {gen : ChapterOutlineModel → ChapterTextModel} :
    ∀ {l : List ChapterOutlineModel}, (∀ o ∈ l, run o = .ok (gen o)) →
      addTextLoop run l = (l.map gen, none) := by
  intro l
  induction l with
  | nil => intro _; rfl
  | cons a t ih =>
    intro h
    rw [addTextLoop, h a (List.mem_cons_self a t)]
    rw [ih (fun x hx => h x (List.mem_cons_of_mem a hx))]
    rfl

instance : IsTotal (Int × ChapterTextModel) (fun a b => a.1 ≤ b.1) :=
  ⟨fun a b => Int.le_total a.1 b.1⟩

instance : IsTrans (Int × ChapterTextModel) (fun a b => a.1 ≤ b.1) :=
  ⟨fun _ _ _ h h' => le_trans h h'⟩

/-! ### Claims -/

/-- Claim C4: each stage operation mutates only its own Document field:
add_metadata sets only `metadata`, add_characters only `characters`,
add_outline only `outline`, add_text and add_text_async only `text`; the
`prompt` field and the fields owned by the other stages are unchanged by
every stage call, whether the call succeeds or raises. -/
theorem stage_frame_effects :
    ∀ (s : Story) (rm : Story → Except Err MetaDataModel)
      (rc : Story → Except Err CharactersModel)
      (ro : Story → Except Err BookOutlineModel)
      (rt : ChapterOutlineModel → Except Err ChapterTextModel)
      (order : List ChapterOutlineModel),
      ((s.add_metadata rm).1.prompt = s.prompt ∧
        (s.add_metadata rm).1.characters = s.characters ∧
        (s.add_metadata rm).1.outline = s.outline ∧
        (s.add_metadata rm).1.text = s.text) ∧
      ((s.add_characters rc).1.prompt = s.prompt ∧
        (s.add_characters rc).1.metadata = s.metadata ∧
        (s.add_characters rc).1.outline = s.outline ∧
        (s.add_characters rc).1.text = s.text) ∧
      ((s.add_outline ro).1.prompt = s.prompt ∧
        (s.add_outline ro).1.metadata = s.metadata ∧
        (s.add_outline ro).1.characters = s.characters ∧
        (s.add_outline ro).1.text = s.text) ∧
      ((s.add_text rt).1.prompt = s.prompt ∧
        (s.add_text rt).1.metadata = s.metadata ∧
        (s.add_text rt).1.characters = s.characters ∧
        (s.add_text rt).1.outline = s.outline) ∧
      ((s.add_text_async rt order).1.prompt = s.prompt ∧
        (s.add_text_async rt order).1.metadata = s.metadata ∧
        (s.add_text_async rt order).1.characters = s.characters ∧
        (s.add_text_async rt order).1.outline = s.outline) := by
  intro s rm rc ro rt order
  refine ⟨?_, ?_, ?_, ?_, ?_⟩
  · unfold Story.add_metadata
    cases rm s <;> exact ⟨rfl, rfl, rfl, rfl⟩
  · unfold Story.add_characters
    cases rc s <;> exact ⟨rfl, rfl, rfl, rfl⟩
  · unfold Story.add_outline
    cases ro s <;> exact ⟨rfl, rfl, rfl, rfl⟩
  · obtain ⟨p, m, c, o, t⟩ := s
    cases o <;> simp [Story.add_text]
  · obtain ⟨p, m, c, o, t⟩ := s
    cases o with
    | none => simp [Story.add_text_async]
    | some ob =>
      cases hg : gatherChapters rt ob.outlines order <;>
        simp [Story.add_text_async, hg]

/-- Claim C2, counterexample: on a Story whose outline is None, add_text
does raise, but the Story is not left unchanged: `story.text` is no
longer None, because `self.text = FullTextModel()` runs before
`self.outline.outlines` raises. -/
theorem add_text_none_outline_text_not_none :
    (Story.add_text (fun _ => .ok ⟨1, "txt"⟩) { prompt := "p" }).2.isSome = true ∧
    ¬ (Story.add_text (fun _ => .ok ⟨1, "txt"⟩) { prompt := "p" }).1.text = none := by
  decide

/-- Claim C2 as amended: calling add_text or add_text_async on a Story
whose outline is None raises an AttributeError, and afterwards the
Story is unchanged except that `story.text` has been set to an empty
FullTextModel (chapters = []), not left as None. -/
theorem add_text_none_outline_error_sets_empty (s : Story) (h : s.outline = none)
    (run : ChapterOutlineModel → Except Err ChapterTextModel)
    (order : List ChapterOutlineModel) :
    (s.add_text run).2 = some .attributeError ∧
    (s.add_text run).1 = { s with text := some ⟨[]⟩ } ∧
    (s.add_text_async run order).2 = some .attributeError ∧
    (s.add_text_async run order).1 = { s with text := some ⟨[]⟩ } := by
  obtain ⟨p, m, c, o, t⟩ := s
  cases o with
  | none => exact ⟨rfl, rfl, rfl, rfl⟩
  | some ob => exact Option.noConfusion h

/-- Witness for the amended C2 at a concrete story. -/
theorem add_text_none_outline_error_sets_empty_witness :
    (Story.add_text (fun _ => .ok ⟨1, "w"⟩) { prompt := "seed" }).2
        = some .attributeError ∧
    (Story.add_text (fun _ => .ok ⟨1, "w"⟩) { prompt := "seed" }).1
        = { prompt := "seed", text := some ⟨[]⟩ } ∧
    (Story.add_text_async (fun _ => .ok ⟨1, "w"⟩) [] { prompt := "seed" }).2
        = some .attributeError ∧
    (Story.add_text_async (fun _ => .ok ⟨1, "w"⟩) [] { prompt := "seed" }).1
        = { prompt := "seed", text := some ⟨[]⟩ } :=
  add_text_none_outline_error_sets_empty { prompt := "seed" } rfl
    (fun _ => .ok ⟨1, "w"⟩) []

/-- Claim C3, counterexample: with a 2-chapter outline and the chapter-2
call raising, add_text_async raises, but `story.text` does not remain
unset: it was already assigned an empty FullTextModel before the
fan-out. -/
theorem add_text_async_failure_text_not_none :
    ((Story.add_text_async
        (fun o => if o.chapter = 2 then .error .parseError else .ok ⟨o.chapter, "t"⟩)
        [⟨1, "a", "sa"⟩, ⟨2, "b", "sb"⟩]
        { prompt := "p",
          outline := some ⟨"syn", "con", "res", [⟨1, "a", "sa"⟩, ⟨2, "b", "sb"⟩]⟩ }).2.isSome
      = true) ∧
    ¬ ((Story.add_text_async
        (fun o => if o.chapter = 2 then .error .parseError else .ok ⟨o.chapter, "t"⟩)
        [⟨1, "a", "sa"⟩, ⟨2, "b", "sb"⟩]
        { prompt := "p",
          outline := some ⟨"syn", "con", "res", [⟨1, "a", "sa"⟩, ⟨2, "b", "sb"⟩]⟩ }).1.text
      = none) := by
  decide

/-- Claim C3 as amended: if any one of the concurrent chapter-text calls
launched by add_text_async raises, the whole stage aborts and no
chapter is committed: `story.text` is left as an empty FullTextModel
(chapters = []), not partially populated with the other chapters (and
not None, since it was assigned before the fan-out). -/
theorem add_text_async_failure_atomic (s : Story) (ob : BookOutlineModel)
    (hs : s.outline = some ob)
    (run : ChapterOutlineModel → Except Err ChapterTextModel)
    (order : List ChapterOutlineModel)
    (o : ChapterOutlineModel) (ho : o ∈ order) (e : Err)
    (he : run o = .error e) :
    (s.add_text_async run order).2.isSome = true ∧
    (s.add_text_async run order).1 = { s with text := some ⟨[]⟩ } := by
  obtain ⟨e', he'⟩ := firstErrorAlong_isSome he ho
  obtain ⟨p, m, c, so, t⟩ := s
  cases so with
  | none => exact Option.noConfusion hs
  | some ob' =>
    have hob : ob = ob' := (Option.some_injective _ hs).symm
    subst hob
    unfold Story.add_text_async gatherChapters
    rw [he']
    exact ⟨rfl, rfl⟩

/-- Witness for the amended C3 at a concrete story: two chapters, the
chapter-2 call raises. -/
theorem add_text_async_failure_atomic_witness :
    (Story.add_text_async
        (fun o => if o.chapter = 2 then .error .parseError else .ok ⟨o.chapter, "t"⟩)
        [⟨1, "a", "sa"⟩, ⟨2, "b", "sb"⟩]
        { prompt := "p",
          outline := some ⟨"syn", "con", "res", [⟨1, "a", "sa"⟩, ⟨2, "b", "sb"⟩]⟩ }).2.isSome
      = true ∧
    (Story.add_text_async
        (fun o => if o.chapter = 2 then .error .parseError else .ok ⟨o.chapter, "t"⟩)
        [⟨1, "a", "sa"⟩, ⟨2, "b", "sb"⟩]
        { prompt := "p",
          outline := some ⟨"syn", "con", "res", [⟨1, "a", "sa"⟩, ⟨2, "b", "sb"⟩]⟩ }).1
      = { prompt := "p",
          outline := some ⟨"syn", "con", "res", [⟨1, "a", "sa"⟩, ⟨2, "b", "sb"⟩]⟩,
          text := some ⟨[]⟩ } :=
  add_text_async_failure_atomic
    { prompt := "p",
      outline := some ⟨"syn", "con", "res", [⟨1, "a", "sa"⟩, ⟨2, "b", "sb"⟩]⟩ }
    ⟨"syn", "con", "res", [⟨1, "a", "sa"⟩, ⟨2, "b", "sb"⟩]⟩ rfl
    (fun o => if o.chapter = 2 then .error .parseError else .ok ⟨o.chapter, "t"⟩)
    [⟨1, "a", "sa"⟩, ⟨2, "b", "sb"⟩] ⟨2, "b", "sb"⟩ (by decide) .parseError
    (by decide)

/-- Evaluation of add_text_async on the success path: no task raised in
completion order and the joined task-order results are `results`. -/
lemma add_text_async_ok_eq (p : String) (m : Option MetaDataModel)
    (c : Option CharactersModel) (t : Option FullTextModel)
    (ob : BookOutlineModel)
    (run : ChapterOutlineModel → Except Err ChapterTextModel)
    (order : List ChapterOutlineModel)
    (hfe : firstErrorAlong run order = none)
    (results : List (Int × ChapterTextModel))
    (hmapM : ob.outlines.mapM (fun o => (run o).map (fun ct => (o.chapter, ct)))
      = .ok results) :
    Story.add_text_async run order ⟨p, m, c, some ob, t⟩ =
      (⟨p, m, c, some ob, some ⟨(sortByChapter results).map Prod.snd⟩⟩, none) := by
  simp only [Story.add_text_async, gatherChapters, hfe, hmapM]

/-- Dropping the sort keys from outline-tagged pairs gives the generated
chapter texts. -/
lemma map_snd_map_pair (gen : ChapterOutlineModel → ChapterTextModel)
    (l : List ChapterOutlineModel) :
    (l.map (fun o => (o.chapter, gen o))).map Prod.snd = l.map gen := by
  rw [List.map_map]
  exact List.map_congr_left (fun a _ => rfl)

/-- Claim C1: for every Story with an outline, when every per-chapter
call succeeds, add_text_async commits `story.text.chapters` sorted
ascending by chapter number, with exactly one ChapterText entry per
ChapterOutline of `story.outline.outlines` (a permutation of the
per-outline results), for every completion order of the concurrent
per-chapter calls; the per-chapter results are assumed to carry their
outline's chapter number, as the data model prescribes. -/
theorem add_text_async_sorted_complete (s : Story) (ob : BookOutlineModel)
    (hs : s.outline = some ob)
    (run : ChapterOutlineModel → Except Err ChapterTextModel)
    (gen : ChapterOutlineModel → ChapterTextModel)
    (hrun : ∀ o ∈ ob.outlines, run o = .ok (gen o))
    (hchap : ∀ o ∈ ob.outlines, (gen o).chapter = o.chapter)
    (order : List ChapterOutlineModel) (hord : order.Perm ob.outlines) :
    ∃ chs : List ChapterTextModel,
      (s.add_text_async run order).1.text = some ⟨chs⟩ ∧
      (s.add_text_async run order).2 = none ∧
      List.Sorted (· ≤ ·) (chs.map (fun ct => ct.chapter)) ∧
      chs.Perm (ob.outlines.map gen) := by
  have hfe : firstErrorAlong run order = none :=
    firstErrorAlong_eq_none (fun o ho => ⟨gen o, hrun o (hord.mem_iff.mp ho)⟩)
  have hmapM : ob.outlines.mapM (fun o => (run o).map (fun ct => (o.chapter, ct)))
      = .ok (ob.outlines.map (fun o => (o.chapter, gen o))) :=
    mapM_ok_of_forall _ _ _ (fun o ho => by rw [hrun o ho]; rfl)
  have hpair : List.Pairwise (fun (a b : Int × ChapterTextModel) => a.1 ≤ b.1)
      (sortByChapter (ob.outlines.map (fun o => (o.chapter, gen o)))) :=
    List.sorted_insertionSort _ _
  have hmem : ∀ pr ∈ sortByChapter (ob.outlines.map (fun o => (o.chapter, gen o))),
      pr.2.chapter = pr.1 := by
    intro pr hpr
    have hpr' : pr ∈ ob.outlines.map (fun o => (o.chapter, gen o)) :=
      ((List.perm_insertionSort _ _).mem_iff).mp hpr
    obtain ⟨o, ho, rfl⟩ := List.mem_map.mp hpr'
    exact hchap o ho
  obtain ⟨p, m, c, so, t⟩ := s
  cases so with
  | none => exact Option.noConfusion hs
  | some ob' =>
    have hob : ob = ob' := (Option.some_injective _ hs).symm
    subst hob
    rw [add_text_async_ok_eq p m c t ob run order hfe _ hmapM]
    refine ⟨(sortByChapter (ob.outlines.map (fun o => (o.chapter, gen o)))).map Prod.snd,
      rfl, rfl, ?_, ?_⟩
    · have hmap1 : ((sortByChapter (ob.outlines.map (fun o => (o.chapter, gen o)))).map
          Prod.snd).map (fun ct => ct.chapter)
          = (sortByChapter (ob.outlines.map (fun o => (o.chapter, gen o)))).map Prod.fst := by
        rw [List.map_map]
        exact List.map_congr_left hmem
      rw [hmap1]
      exact List.Pairwise.map Prod.fst (fun a b h => h) hpair
    · have hperm : ((sortByChapter (ob.outlines.map (fun o => (o.chapter, gen o)))).map
          Prod.snd).Perm ((ob.outlines.map (fun o => (o.chapter, gen o))).map Prod.snd) :=
        (List.perm_insertionSort _ _).map Prod.snd
      rw [map_snd_map_pair] at hperm
      exact hperm

/-- Witness for C1: a 3-chapter outline numbered 1, 2, 3 whose concurrent
calls complete in the order 3, 1, 2 still commits chapters 1, 2, 3. -/
theorem add_text_async_sorted_complete_witness :
    ∃ chs : List ChapterTextModel,
      (Story.add_text_async (fun o => .ok ⟨o.chapter, "text"⟩)
          [⟨3, "t3", "s3"⟩, ⟨1, "t1", "s1"⟩, ⟨2, "t2", "s2"⟩]
          { prompt := "seed",
            outline := some ⟨"s", "c", "r",
              [⟨1, "t1", "s1"⟩, ⟨2, "t2", "s2"⟩, ⟨3, "t3", "s3"⟩]⟩ }).1.text
        = some ⟨chs⟩ ∧
      (Story.add_text_async (fun o => .ok ⟨o.chapter, "text"⟩)
          [⟨3, "t3", "s3"⟩, ⟨1, "t1", "s1"⟩, ⟨2, "t2", "s2"⟩]
          { prompt := "seed",
            outline := some ⟨"s", "c", "r",
              [⟨1, "t1", "s1"⟩, ⟨2, "t2", "s2"⟩, ⟨3, "t3", "s3"⟩]⟩ }).2
        = none ∧
      List.Sorted (· ≤ ·) (chs.map (fun ct => ct.chapter)) ∧
      chs.Perm ([⟨1, "t1", "s1"⟩, ⟨2, "t2", "s2"⟩,
        (⟨3, "t3", "s3"⟩ : ChapterOutlineModel)].map
          (fun o => (⟨o.chapter, "text"⟩ : ChapterTextModel))) :=
  add_text_async_sorted_complete
    { prompt := "seed",
      outline := some ⟨"s", "c", "r", [⟨1, "t1", "s1"⟩, ⟨2, "t2", "s2"⟩, ⟨3, "t3", "s3"⟩]⟩ }
    ⟨"s", "c", "r", [⟨1, "t1", "s1"⟩, ⟨2, "t2", "s2"⟩, ⟨3, "t3", "s3"⟩]⟩ rfl
    (fun o => .ok ⟨o.chapter, "text"⟩) (fun o => ⟨o.chapter, "text"⟩)
    (fun _ _ => rfl) (fun _ _ => rfl)
    [⟨3, "t3", "s3"⟩, ⟨1, "t1", "s1"⟩, ⟨2, "t2", "s2"⟩] (by decide)

/-- Claim C9: on a Story whose outline chapter numbers are already in
ascending order, add_text and add_text_async produce the same final
Story and the same raised-error status, given the same per-chapter
generation results (all succeeding), for every completion order of the
asynchronous variant. -/
theorem add_text_equiv_add_text_async (s : Story) (ob : BookOutlineModel)
    (hs : s.outline = some ob)
    (run : ChapterOutlineModel → Except Err ChapterTextModel)
    (gen : ChapterOutlineModel → ChapterTextModel)
    (hrun : ∀ o ∈ ob.outlines, run o = .ok (gen o))
    (hsorted : List.Sorted (· ≤ ·) (ob.outlines.map (fun o => o.chapter)))
    (order : List ChapterOutlineModel) (hord : order.Perm ob.outlines) :
    s.add_text run = s.add_text_async run order := by
  have hfe : firstErrorAlong run order = none :=
    firstErrorAlong_eq_none (fun o ho => ⟨gen o, hrun o (hord.mem_iff.mp ho)⟩)
  have hmapM : ob.outlines.mapM (fun o => (run o).map (fun ct => (o.chapter, ct)))
      = .ok (ob.outlines.map (fun o => (o.chapter, gen o))) :=
    mapM_ok_of_forall _ _ _ (fun o ho => by rw [hrun o ho]; rfl)
  have hsortpairs : List.Pairwise (fun (a b : Int × ChapterTextModel) => a.1 ≤ b.1)
      (ob.outlines.map (fun o => (o.chapter, gen o))) := by
    rw [List.pairwise_map]
    exact List.pairwise_map.mp hsorted
  have hsort_eq : sortByChapter (ob.outlines.map (fun o => (o.chapter, gen o)))
      = ob.outlines.map (fun o => (o.chapter, gen o)) :=
    List.Sorted.insertionSort_eq hsortpairs
  obtain ⟨p, m, c, so, t⟩ := s
  cases so with
  | none => exact Option.noConfusion hs
  | some ob' =>
    have hob : ob = ob' := (Option.some_injective _ hs).symm
    subst hob
    rw [add_text_async_ok_eq p m c t ob run order hfe _ hmapM]
    simp only [Story.add_text, addTextLoop_ok hrun, hsort_eq, map_snd_map_pair]

/-- Witness for C9: ascending 3-chapter outline, async completion order
2, 3, 1; the sync and async stages agree. -/
theorem add_text_equiv_add_text_async_witness :
    Story.add_text (fun o => .ok ⟨o.chapter, "body"⟩)
        { prompt := "seed",
          outline := some ⟨"s", "c", "r",
            [⟨1, "t1", "s1"⟩, ⟨2, "t2", "s2"⟩, ⟨3, "t3", "s3"⟩]⟩ }
      = Story.add_text_async (fun o => .ok ⟨o.chapter, "body"⟩)
          [⟨2, "t2", "s2"⟩, ⟨3, "t3", "s3"⟩, ⟨1, "t1", "s1"⟩]
          { prompt := "seed",
            outline := some ⟨"s", "c", "r",
              [⟨1, "t1", "s1"⟩, ⟨2, "t2", "s2"⟩, ⟨3, "t3", "s3"⟩]⟩ } :=
  add_text_equiv_add_text_async
    { prompt := "seed",
      outline := some ⟨"s", "c", "r", [⟨1, "t1", "s1"⟩, ⟨2, "t2", "s2"⟩, ⟨3, "t3", "s3"⟩]⟩ }
    ⟨"s", "c", "r", [⟨1, "t1", "s1"⟩, ⟨2, "t2", "s2"⟩, ⟨3, "t3", "s3"⟩]⟩ rfl
    (fun o => .ok ⟨o.chapter, "body"⟩) (fun o => ⟨o.chapter, "body"⟩)
    (fun _ _ => rfl) (by decide)
    [⟨2, "t2", "s2"⟩, ⟨3, "t3", "s3"⟩, ⟨1, "t1", "s1"⟩] (by decide)

/-- Claim C8: for any model response that serializes the Metadata schema
with every field at its declared type, the Invoker returns a record
whose field values equal the serialized values exactly, with no lossy
coercion; key order and extra keys in the response object are
irrelevant. -/
theorem run_llm_metadata_exact (llm : Story → Except Err JValue) (s : Story)
    (fs : List (String × JValue)) (title author : String) (year : Int)
    (themes : List String) (location : String)
    (hllm : llm s = .ok (.obj fs))
    (ht : jlookup fs "title" = some (.str title))
    (ha : jlookup fs "author" = some (.str author))
    (hy : jlookup fs "year" = some (.int year))
    (hth : jlookup fs "themes" = some (.arr (themes.map .str)))
    (hl : jlookup fs "location" = some (.str location)) :
    s.runLLM llm parseMetaData = .ok ⟨title, author, year, themes, location⟩ := by
  simp only [Story.runLLM, hllm]
  show parseMetaData (.obj fs) = _
  simp only [parseMetaData, requiredField, ht, ha, hy, hth, hl]
  show asStrList (.arr (themes.map .str)) >>= _ = _
  rw [show asStrList (.arr (themes.map .str)) = .ok themes from mapM_asStr_map_str themes]
  rfl

/-- Witness for C8 at the scenario response of the spec. -/
theorem run_llm_metadata_exact_witness :
    Story.runLLM
      (fun _ => .ok (.obj
        [("title", .str "The Adventures of Timmy"),
         ("author", .str "Wanda Wordsmith"),
         ("year", .int 2023),
         ("themes", .arr [.str "friendship", .str "bravery"]),
         ("location", .str "Whispering Forest")]))
      parseMetaData { prompt := "A brave turtle helps his forest friends" }
      = .ok ⟨"The Adventures of Timmy", "Wanda Wordsmith", 2023,
          ["friendship", "bravery"], "Whispering Forest"⟩ :=
  run_llm_metadata_exact
    (fun _ => .ok (.obj
      [("title", .str "The Adventures of Timmy"),
       ("author", .str "Wanda Wordsmith"),
       ("year", .int 2023),
       ("themes", .arr [.str "friendship", .str "bravery"]),
       ("location", .str "Whispering Forest")]))
    { prompt := "A brave turtle helps his forest friends" }
    [("title", .str "The Adventures of Timmy"),
     ("author", .str "Wanda Wordsmith"),
     ("year", .int 2023),
     ("themes", .arr [.str "friendship", .str "bravery"]),
     ("location", .str "Whispering Forest")]
    "The Adventures of Timmy" "Wanda Wordsmith" 2023 ["friendship", "bravery"]
    "Whispering Forest" rfl rfl rfl rfl rfl rfl

/-- Claim C5 (the code side): running the Invoker with the
ChapterTextModel schema on a response that omits the `chapter` key does
not raise; it returns a record whose `chapter` field was not decoded
from the response but filled with the declared default `""` (the
description string passed positionally to `Field` made both fields
optional, src/app/models.py 76-79).  So the Invoker can return a
partially populated record, contradicting the all-or-error contract. -/
theorem run_llm_chapter_text_default_fills :
    Story.runLLM (fun _ => .ok (.obj [("text", .str "Once upon a time")]))
        parseChapterText { prompt := "p" }
      = .ok ⟨.str "", "Once upon a time"⟩ ∧
    jlookup [("text", JValue.str "Once upon a time")] "chapter" = none :=
  ⟨rfl, rfl⟩

/-- A succeeding Except bind decomposes into a succeeding first step and
a succeeding continuation. -/
lemma except_bind_ok {ε α β : Type} {x : Except ε α} {f : α → Except ε β} {b : β}
    (h : (x >>= f) = .ok b) : ∃ a, x = .ok a ∧ f a = .ok b := by
  cases x with
  | error e => exact Except.noConfusion h
  | ok a => exact ⟨a, rfl, h⟩

/-- A successful per-character illustration result carries the index of
the character it was generated for. -/
lemma generate_image_async_fst (img : String → Except Err ImgResponse)
    (llm : Story → Nat → CharacterModel → Except Err String)
    (s : Story) (i : Nat) (r : Nat × String × ImgResponse)
    (h : generate_image_async img llm s i = .ok r) : r.1 = i := by
  unfold generate_image_async at h
  obtain ⟨c, _, h⟩ := except_bind_ok h
  obtain ⟨res, _, h⟩ := except_bind_ok h
  obtain ⟨resp, _, h⟩ := except_bind_ok h
  have h2 : (i, res, resp) = r := Except.ok.inj h
  rw [← h2]

/-- Claim C6: if the descriptive-prompt call or the image-synthesis call
for any single in-range character index raises, the whole
generate_all_character_images batch raises: it returns an error, not a
result list, so no ImageResult of any other character is exposed as a
committed success. -/
theorem generate_all_character_images_batch_fails
    (img : String → Except Err ImgResponse)
    (llm : Story → Nat → CharacterModel → Except Err String)
    (s : Story) (cs : CharactersModel) (hcs : s.characters = some cs)
    (i : Nat) (hi : i < cs.characters.length) (e : Err)
    (hf : generate_image_async img llm s i = .error e) :
    ∃ e', generate_all_character_images img llm s = .error e' := by
  obtain ⟨e', he'⟩ :=
    mapM_error_of_mem (generate_image_async img llm s) hf (List.mem_range.mpr hi)
  refine ⟨e', ?_⟩
  unfold generate_all_character_images
  rw [hcs]
  exact he'

/-- Witness for C6: two characters, the descriptive-prompt call for index
1 raises; the whole batch raises. -/
theorem generate_all_character_images_batch_fails_witness :
    ∃ e', generate_all_character_images
        (fun _ => .ok ⟨[⟨"url"⟩]⟩)
        (fun _ i _ => if i = 1 then .error .externalCallError else .ok "desc")
        { prompt := "p",
          characters := some ⟨[⟨"A", "dA", "pA"⟩, ⟨"B", "dB", "pB"⟩]⟩ }
      = .error e' :=
  generate_all_character_images_batch_fails
    (fun _ => .ok ⟨[⟨"url"⟩]⟩)
    (fun _ i _ => if i = 1 then .error .externalCallError else .ok "desc")
    { prompt := "p", characters := some ⟨[⟨"A", "dA", "pA"⟩, ⟨"B", "dB", "pB"⟩]⟩ }
    ⟨[⟨"A", "dA", "pA"⟩, ⟨"B", "dB", "pB"⟩]⟩ rfl 1 (by decide) .externalCallError
    (by decide)

/-- Claim C10: when every per-character call succeeds,
generate_all_character_images returns a list whose length is the number
of characters and whose i-th element is a triple starting with the
character index i, for every position i in order. -/
theorem generate_all_character_images_indexed
    (img : String → Except Err ImgResponse)
    (llm : Story → Nat → CharacterModel → Except Err String)
    (s : Story) (cs : CharactersModel) (hcs : s.characters = some cs)
    (hok : ∀ i, i < cs.characters.length →
      (generate_image_async img llm s i).isOk = true) :
    ∃ rs : List (Nat × String × ImgResponse),
      generate_all_character_images img llm s = .ok rs ∧
      rs.length = cs.characters.length ∧
      ∀ i (hi : i < rs.length), (rs.get ⟨i, hi⟩).1 = i := by
  have hval : ∀ i ∈ List.range cs.characters.length,
      generate_image_async img llm s i
        = .ok (((generate_image_async img llm s i).toOption).getD (0, "", ⟨[]⟩)) := by
    intro i hi
    have hOk := hok i (List.mem_range.mp hi)
    cases hgi : generate_image_async img llm s i with
    | error e => rw [hgi] at hOk; exact Bool.noConfusion hOk
    | ok r => rfl
  have hmapM := mapM_ok_of_forall (generate_image_async img llm s)
    (fun i => ((generate_image_async img llm s i).toOption).getD (0, "", ⟨[]⟩))
    (List.range cs.characters.length) hval
  refine ⟨(List.range cs.characters.length).map
      (fun i => ((generate_image_async img llm s i).toOption).getD (0, "", ⟨[]⟩)),
    ?_, ?_, ?_⟩
  · unfold generate_all_character_images
    rw [hcs]
    exact hmapM
  · rw [List.length_map, List.length_range]
  · intro i hi
    have hi' : i < cs.characters.length := by
      rw [List.length_map, List.length_range] at hi
      exact hi
    rw [List.get_eq_getElem, List.getElem_map, List.getElem_range]
    exact generate_image_async_fst img llm s i _ (hval i (List.mem_range.mpr hi'))

/-- Witness for C10: two characters, all calls succeed; the batch result
is index-tagged in order. -/
theorem generate_all_character_images_indexed_witness :
    ∃ rs : List (Nat × String × ImgResponse),
      generate_all_character_images
          (fun _ => .ok ⟨[⟨"url"⟩]⟩)
          (fun _ _ _ => .ok "desc")
          { prompt := "p",
            characters := some ⟨[⟨"A", "dA", "pA"⟩, ⟨"B", "dB", "pB"⟩]⟩ }
        = .ok rs ∧
      rs.length
        = (⟨[⟨"A", "dA", "pA"⟩, ⟨"B", "dB", "pB"⟩]⟩ : CharactersModel).characters.length ∧
      ∀ i (hi : i < rs.length), (rs.get ⟨i, hi⟩).1 = i :=
  generate_all_character_images_indexed
    (fun _ => .ok ⟨[⟨"url"⟩]⟩) (fun _ _ _ => .ok "desc")
    { prompt := "p", characters := some ⟨[⟨"A", "dA", "pA"⟩, ⟨"B", "dB", "pB"⟩]⟩ }
    ⟨[⟨"A", "dA", "pA"⟩, ⟨"B", "dB", "pB"⟩]⟩ rfl (by decide)

/-- Membership transfer along a split: if `a` occurs in a prefix `xs` of
a list and `b` does not occur in `xs`, then in any decomposition of the
list around an occurrence of `b`, the part before `b` contains `a`. -/
lemma mem_left_of_append_eq_cons {α : Type} (a b : α) :
    ∀ (xs ys l₁ l₂ : List α), a ∈ xs → b ∉ xs →
      xs ++ ys = l₁ ++ b :: l₂ → a ∈ l₁ := by
  intro xs
  induction xs with
  | nil => intro ys l₁ l₂ ha _ _; cases ha
  | cons x xs ih =>
    intro ys l₁ l₂ ha hb heq
    cases l₁ with
    | nil =>
      injection heq with h1 _
      subst h1
      exact absurd (List.mem_cons_self _ _) hb
    | cons c l₁ =>
      injection heq with h1 h2
      subst h1
      rcases List.mem_cons.mp ha with rfl | hax
      · exact List.mem_cons_self _ _
      · have hb' : b ∉ xs := fun hbx => hb (List.mem_cons_of_mem _ hbx)
        exact List.mem_cons_of_mem _ (ih ys l₁ l₂ hax hb' h2)

/-- Claim C7: the stages of run_app execute strictly in the order
metadata, characters, character images, outline, chapter text: in the
event trace of a run, wherever an external call of a later stage
begins, the write (or image batch completion) of every earlier stage
has already occurred before it, for any sizes of the two fan-out
batches. -/
theorem run_app_cross_stage_order (nImgs nChaps : Nat) (s₁ s₂ : Stage)
    (h : s₁.idx < s₂.idx) (l₁ l₂ : List Event)
    (hsplit : runAppTrace nImgs nChaps = l₁ ++ .call s₂ :: l₂) :
    Event.write s₁ ∈ l₁ := by
  cases s₁ <;> cases s₂ <;> try exact absurd h (by decide)
  · exact mem_left_of_append_eq_cons (Event.write .metadata) (Event.call .characters)
      [.call .metadata, .write .metadata]
      ([.call .characters, .write .characters]
        ++ (List.range nImgs).map (fun _ => .call .images) ++ [.write .images]
        ++ [.call .outline, .write .outline]
        ++ (List.range nChaps).map (fun _ => .call .text) ++ [.write .text])
      l₁ l₂ (by decide) (by decide)
      (by rw [← hsplit]; simp [runAppTrace, List.append_assoc])
  · exact mem_left_of_append_eq_cons (Event.write .metadata) (Event.call .images)
      [.call .metadata, .write .metadata]
      ([.call .characters, .write .characters]
        ++ (List.range nImgs).map (fun _ => .call .images) ++ [.write .images]
        ++ [.call .outline, .write .outline]
        ++ (List.range nChaps).map (fun _ => .call .text) ++ [.write .text])
      l₁ l₂ (by decide) (by decide)
      (by rw [← hsplit]; simp [runAppTrace, List.append_assoc])
  · exact mem_left_of_append_eq_cons (Event.write .metadata) (Event.call .outline)
      [.call .metadata, .write .metadata]
      ([.call .characters, .write .characters]
        ++ (List.range nImgs).map (fun _ => .call .images) ++ [.write .images]
        ++ [.call .outline, .write .outline]
        ++ (List.range nChaps).map (fun _ => .call .text) ++ [.write .text])
      l₁ l₂ (by decide) (by decide)
      (by rw [← hsplit]; simp [runAppTrace, List.append_assoc])
  · exact mem_left_of_append_eq_cons (Event.write .metadata) (Event.call .text)
      [.call .metadata, .write .metadata]
      ([.call .characters, .write .characters]
        ++ (List.range nImgs).map (fun _ => .call .images) ++ [.write .images]
        ++ [.call .outline, .write .outline]
        ++ (List.range nChaps).map (fun _ => .call .text) ++ [.write .text])
      l₁ l₂ (by decide) (by decide)
      (by rw [← hsplit]; simp [runAppTrace, List.append_assoc])
  · exact mem_left_of_append_eq_cons (Event.write .characters) (Event.call .images)
      [.call .metadata, .write .metadata, .call .characters, .write .characters]
      ((List.range nImgs).map (fun _ => .call .images) ++ [.write .images]
        ++ [.call .outline, .write .outline]
        ++ (List.range nChaps).map (fun _ => .call .text) ++ [.write .text])
      l₁ l₂ (by decide) (by decide)
      (by rw [← hsplit]; simp [runAppTrace, List.append_assoc])
  · exact mem_left_of_append_eq_cons (Event.write .characters) (Event.call .outline)
      [.call .metadata, .write .metadata, .call .characters, .write .characters]
      ((List.range nImgs).map (fun _ => .call .images) ++ [.write .images]
        ++ [.call .outline, .write .outline]
        ++ (List.range nChaps).map (fun _ => .call .text) ++ [.write .text])
      l₁ l₂ (by decide) (by decide)
      (by rw [← hsplit]; simp [runAppTrace, List.append_assoc])
  · exact mem_left_of_append_eq_cons (Event.write .characters) (Event.call .text)
      [.call .metadata, .write .metadata, .call .characters, .write .characters]
      ((List.range nImgs).map (fun _ => .call .images) ++ [.write .images]
        ++ [.call .outline, .write .outline]
        ++ (List.range nChaps).map (fun _ => .call .text) ++ [.write .text])
      l₁ l₂ (by decide) (by decide)
      (by rw [← hsplit]; simp [runAppTrace, List.append_assoc])
  · exact mem_left_of_append_eq_cons (Event.write .images) (Event.call .outline)
      ([.call .metadata, .write .metadata, .call .characters, .write .characters]
        ++ (List.range nImgs).map (fun _ => .call .images) ++ [.write .images])
      ([.call .outline, .write .outline]
        ++ (List.range nChaps).map (fun _ => .call .text) ++ [.write .text])
      l₁ l₂ (by simp) (by simp)
      (by rw [← hsplit]; simp [runAppTrace, List.append_assoc])
  · exact mem_left_of_append_eq_cons (Event.write .images) (Event.call .text)
      ([.call .metadata, .write .metadata, .call .characters, .write .characters]
        ++ (List.range nImgs).map (fun _ => .call .images) ++ [.write .images])
      ([.call .outline, .write .outline]
        ++ (List.range nChaps).map (fun _ => .call .text) ++ [.write .text])
      l₁ l₂ (by simp) (by simp)
      (by rw [← hsplit]; simp [runAppTrace, List.append_assoc])
  · exact mem_left_of_append_eq_cons (Event.write .outline) (Event.call .text)
      ([.call .metadata, .write .metadata, .call .characters, .write .characters]
        ++ (List.range nImgs).map (fun _ => .call .images)
        ++ [.write .images, .call .outline, .write .outline])
      ((List.range nChaps).map (fun _ => .call .text) ++ [.write .text])
      l₁ l₂ (by simp) (by simp)
      (by rw [← hsplit]; simp [runAppTrace, List.append_assoc])

/-- Witness for C7: with one image and one chapter, the chapter-text call
begins only after the metadata write occurred. -/
theorem run_app_cross_stage_order_witness :
    Event.write .metadata ∈
      ([.call .metadata, .write .metadata, .call .characters, .write .characters,
        .call .images, .write .images, .call .outline, .write .outline] : List Event) :=
  run_app_cross_stage_order 1 1 .metadata .text (by decide)
    [.call .metadata, .write .metadata, .call .characters, .write .characters,
     .call .images, .write .images, .call .outline, .write .outline]
    [.write .text] (by decide)

end DeepBook
